import Mathlib

/-
  Shallow embedding of the zone state synchronization engine of
  src/src/main.cpp (zigbee-irrigation-controller).

  Machine integers: millis() and zoneSafetyOffTime are 32-bit unsigned
  counters; they are modelled as Nat with explicit reduction modulo 2^32
  wherever the C code can overflow (the deadline computation
  millis() + SAFETY_TIMEOUT_MINUTES * 60 * 1000UL and the unsigned
  subtraction millis() - buttonPressStartTime).

  Actuator outcomes: hunter.startZone / hunter.stopZone return a status
  byte, 0 meaning success. The driver is an external collaborator, so each
  handler takes the status it would return as an explicit argument
  (an oracle), and the commands actually issued to the driver are returned
  as an explicit list so that theorems can count them.
-/

namespace Firmware

/-- 32-bit wrap modulus for the millis counter and the deadline array. -/
def U32 : Nat := 2 ^ 32

/-- NUM_ZONES from main.cpp line 11. -/
def NUM_ZONES : Nat := 4

/-- SAFETY_TIMEOUT_MINUTES from main.cpp line 12. -/
def SAFETY_TIMEOUT_MINUTES : Nat := 60

/-- Milliseconds added to millis() when a start succeeds
    (main.cpp line 58: SAFETY_TIMEOUT_MINUTES * 60 * 1000UL). -/
def safetyTimeoutMs : Nat := SAFETY_TIMEOUT_MINUTES * 60 * 1000

/-- Commands sent to the external HunterRoam actuator driver:
    hunter.startZone(zoneNumber, duration) and hunter.stopZone(zoneNumber),
    both 1-based (main.cpp lines 50 and 62). -/
inductive Cmd where
  | startZone (zoneNumber duration : Nat)
  | stopZone (zoneNumber : Nat)
deriving Repr, DecidableEq

/-- Per-zone state visible to the engine: the mirrored on/off attribute held
    by the ZigbeeLight endpoint (valves[i]) and the zoneSafetyOffTime entry
    (main.cpp line 35; 0 means no timer is running). -/
structure Zone where
  mirror : Bool
  safetyOffTime : Nat
deriving Repr, DecidableEq

/-- handleZoneChange (main.cpp lines 45 to 73). The handler always issues
    exactly one actuator command for the requested direction; only the
    safety-timer update depends on the returned status. On a successful
    start the timer becomes millis() + SAFETY_TIMEOUT_MINUTES*60*1000UL,
    reduced modulo 2^32 by the unsigned arithmetic; on a successful stop it
    becomes 0; on any failure the handler only logs and changes nothing.
    The handler never writes the mirrored attribute. Returns the new timer
    value and the list of issued commands. -/
def handleZoneChange (index : Nat) (requestedState : Bool) (err now t : Nat) :
    Nat × List Cmd :=
  if requestedState then
    ((if err ≠ 0 then t else (now + safetyTimeoutMs) % U32),
     [Cmd.startZone (index + 1) SAFETY_TIMEOUT_MINUTES])
  else
    ((if err ≠ 0 then t else 0),
     [Cmd.stopZone (index + 1)])

/-- setLight on valves[index]: the ZigbeeLight endpoint stores the written
    value as the mirrored state and dispatches the registered onLightChange
    callback, which is handleZoneChange for that zone (main.cpp lines 76 to
    83 and 219 to 222; the comment at line 186 states that the engine-issued
    setLight(false) triggers the callback). The callback itself performs no
    further mirror writes, so the chain terminates after one step. -/
def setLight (index : Nat) (value : Bool) (err now : Nat) (z : Zone) :
    Zone × List Cmd :=
  let r := handleZoneChange index value err now z.safetyOffTime
  ({ mirror := value, safetyOffTime := r.1 }, r.2)

/-- A network-originated attribute write from the coordinator: the endpoint
    records the requested value as the mirrored state and dispatches the
    same onLightChange callback. Identical to an engine-issued setLight. -/
def onNetworkRequest (index : Nat) (requestedOn : Bool) (err now : Nat)
    (z : Zone) : Zone × List Cmd :=
  setLight index requestedOn err now z

/-- The expiry condition of the per-zone deadline scan, exactly as written
    at main.cpp line 184: zoneSafetyOffTime[i] != 0 && millis() >=
    zoneSafetyOffTime[i], a direct unsigned comparison of the raw counters. -/
def deadlineDue (now t : Nat) : Bool :=
  decide (t ≠ 0) && decide (t ≤ now)

/-- Modelled from the spec: the wraparound-tolerant expiry comparison the
    spec mandates, computing the signed 32-bit difference now - t and
    testing it nonnegative; for 32-bit counters this is
    (now - t) mod 2^32 < 2^31. Used only to compare against deadlineDue. -/
def signedDiffDue (now t : Nat) : Bool :=
  decide (t ≠ 0) && decide ((now + U32 - t) % U32 < 2 ^ 31)

/-- One zone of the handleSafetyTimeout scan (main.cpp lines 180 to 191):
    when the timer is set and the raw comparison says it is due, call
    setLight(false) on that valve, which triggers handleZoneChange; the scan
    itself deliberately does not clear the timer (comment at lines 187-188),
    so a failed stop leaves the timer set for the next iteration. -/
def handleSafetyTimeoutZone (index now err : Nat) (z : Zone) :
    Zone × List Cmd :=
  if deadlineDue now z.safetyOffTime then setLight index false err now z
  else (z, [])

/-- Helper for the loop of handleSafetyTimeout over the zone array, carrying
    the running index; errf gives the actuator status for each zone. -/
def handleSafetyTimeoutGo (errf : Nat → Nat) (now : Nat) :
    Nat → List Zone → List Zone × List Cmd
  | _, [] => ([], [])
  | index, z :: rest =>
      let r := handleSafetyTimeoutZone index now (errf index) z
      let r2 := handleSafetyTimeoutGo errf now (index + 1) rest
      (r.1 :: r2.1, r.2 ++ r2.2)

/-- handleSafetyTimeout (main.cpp lines 180 to 191): the per-iteration scan
    over all zones, starting at index 0. -/
def handleSafetyTimeout (errf : Nat → Nat) (now : Nat) (zs : List Zone) :
    List Zone × List Cmd :=
  handleSafetyTimeoutGo errf now 0 zs

/-- Repeated polling iterations of the deadline scan restricted to a single
    zone: each list element is the (millis, actuator status) pair of one
    iteration. Accumulates the issued commands. -/
def runScanIters (index : Nat) : List (Nat × Nat) → Zone → Zone × List Cmd
  | [], z => (z, [])
  | p :: rest, z =>
      let r := handleSafetyTimeoutZone index p.1 p.2 z
      let r2 := runScanIters index rest r.1
      (r2.1, r.2 ++ r2.2)

/-- isAnyZoneActive (main.cpp lines 105 to 113): true exactly when some
    zoneSafetyOffTime entry is nonzero. -/
def isAnyZoneActive (zs : List Zone) : Bool :=
  zs.any fun z => decide (z.safetyOffTime ≠ 0)

/-- Helper for the loop of handleInitialShutdown that drives every valve
    OFF (main.cpp lines 94 to 96), carrying the running index; each
    setLight(false) triggers the zone callback as usual. -/
def forceAllOffGo (errf : Nat → Nat) (now : Nat) :
    Nat → List Zone → List Zone × List Cmd
  | _, [] => ([], [])
  | index, z :: rest =>
      let r := setLight index false (errf index) now z
      let r2 := forceAllOffGo errf now (index + 1) rest
      (r.1 :: r2.1, r.2 ++ r2.2)

/-- The all-zones-off action of handleInitialShutdown: setLight(false) on
    every valve in order, starting at index 0. -/
def forceAllOff (errf : Nat → Nat) (now : Nat) (zs : List Zone) :
    List Zone × List Cmd :=
  forceAllOffGo errf now 0 zs

/-- The once-per-boot gating of handleInitialShutdown (main.cpp lines 90 to
    99): given the initialShutdownComplete flag and the per-iteration
    Zigbee.connected() observations, returns for each iteration whether the
    all-zones-off action fires there. The flag update follows the code:
    it becomes true at the first connected observation and never reverts. -/
def shutdownFires (s : Bool) : List Bool → List Bool
  | [] => []
  | c :: rest => (c && !s) :: shutdownFires (s || c) rest

/-- Marks the first true element of a list and forces everything after it to
    false; the expected firing pattern of a strictly once-per-boot action. -/
def firstTrueOnly : List Bool → List Bool
  | [] => []
  | true :: rest => true :: rest.map fun _ => false
  | false :: rest => false :: firstTrueOnly rest

/-- The static state of handleFactoryResetButton (main.cpp lines 157 and
    158): buttonPressStartTime and isButtonBeingHeld. -/
structure BtnState where
  pressStart : Nat
  held : Bool
deriving Repr, DecidableEq

/-- handleFactoryResetButton (main.cpp lines 156 to 175). pressed is
    digitalRead(BUTTON_PIN) == LOW. On the first pressed sample the start
    time is recorded and held is set; on later pressed samples the action
    fires whenever millis() - buttonPressStartTime > 5000 in unsigned
    32-bit arithmetic; on a released sample held is cleared. Returns the
    new state and whether Zigbee.factoryReset() was invoked this sample. -/
def handleFactoryResetButton (pressed : Bool) (now : Nat) (s : BtnState) :
    BtnState × Bool :=
  if pressed then
    if s.held = false then ({ pressStart := now, held := true }, false)
    else if 5000 < (now + U32 - s.pressStart) % U32 then (s, true)
    else (s, false)
  else
    if s.held then ({ s with held := false }, false) else (s, false)

/-- Repeated polling of the button handler over a list of (pressed, millis)
    samples; returns the per-sample fire flags. -/
def runButton (s : BtnState) : List (Bool × Nat) → List Bool
  | [] => []
  | p :: rest =>
      let r := handleFactoryResetButton p.1 p.2 s
      r.2 :: runButton r.1 rest

/-- Watchdog, join and reboot events of setup() (main.cpp lines 194 to 242),
    in program order. -/
inductive BootEvent where
  | wdtInit
  | wdtAdd
  | wdtDelete
  | zigbeeBegin
  | restart
deriving Repr, DecidableEq

/-- The event trace of setup() (main.cpp lines 202 to 242): initialize the
    watchdog and register the task, deregister the task right before
    Zigbee.begin(), then either re-register on success or call ESP.restart()
    on failure (after which nothing further executes). -/
def setupEvents (beginOk : Bool) : List BootEvent :=
  [BootEvent.wdtInit, BootEvent.wdtAdd]
    ++ [BootEvent.wdtDelete]
    ++ [BootEvent.zigbeeBegin]
    ++ (if beginOk then [BootEvent.wdtAdd] else [BootEvent.restart])

/-- Claim C1. The expiry check at main.cpp line 184 is a direct unsigned
    greater-or-equal on the raw counters and does not agree with the signed
    difference comparison across wraparound: with the deadline stored as
    2^32 - 1000 (set before the counter wrapped) and millis() = 5 (after the
    wrap, 1005 ms past the logical deadline), the signed-difference
    comparison says the deadline has passed, but the code check says it has
    not, and the four-zone scan issues no stop and changes nothing. -/
theorem c1_deadline_wraparound_failing_input :
    signedDiffDue 5 (U32 - 1000) = true ∧
    deadlineDue 5 (U32 - 1000) = false ∧
    handleSafetyTimeout (fun _ => 0) 5
        [⟨true, U32 - 1000⟩, ⟨false, 0⟩, ⟨false, 0⟩, ⟨false, 0⟩]
      = ([⟨true, U32 - 1000⟩, ⟨false, 0⟩, ⟨false, 0⟩, ⟨false, 0⟩], []) := by
  refine ⟨by decide, by decide, by decide⟩

/-- Claim C2, counterexample. There is no suppression flag in the code: an
    engine-issued mirror write (the setLight(false) of the deadline-expiry
    handler, here for zone 0 with a running timer) is not ignored by the
    change callback — it dispatches handleZoneChange, which issues a stop
    command for that zone. -/
theorem c2_engine_write_not_ignored :
    (setLight 0 false 0 100 ⟨true, 50⟩).2 ≠ [] ∧
    (setLight 0 false 0 100 ⟨true, 50⟩).2 = [Cmd.stopZone 1] := by
  refine ⟨by decide, by decide⟩

/-- Claim C2, amended. An engine-issued mirror write deliberately triggers
    the zone callback and causes exactly one actuator command — the echo is
    the mechanism by which the command is issued. No transition produces a
    second command, because the engine issues no command before the write
    and the callback performs no further mirror writes. -/
theorem c2_engine_write_single_command (index : Nat) (v : Bool)
    (err now : Nat) (z : Zone) :
    (setLight index v err now z).2.length = 1 := by
  cases v <;> simp [setLight, handleZoneChange]

/-- Claim C7, counterexample. The button handler has no fired flag: during
    one continuous hold sampled at millis 0, 6000 and 6100, the factory
    reset action fires twice, not exactly once. -/
theorem c7_reset_refires_during_hold :
    (runButton ⟨0, false⟩ [(true, 0), (true, 6000), (true, 6100)]).count true
      = 2 := by
  decide

/-- Claim C7, amended. On a pressed sample the handler records the press
    start when not yet held, and fires exactly when already held and the
    unsigned elapsed time exceeds 5000 ms — hence on every polled iteration
    of a hold past the threshold, the code relying on the reset action
    rebooting the device; a released sample clears the held flag and never
    fires. Concretely: a hold released at 4.9 seconds never fires, and after
    a release a new press re-arms detection and fires relative to the new
    press start. -/
theorem c7_button_behavior :
    (∀ (now : Nat) (s : BtnState),
        handleFactoryResetButton true now s
          = (if s.held then s else ⟨now, true⟩,
             s.held && decide (5000 < (now + U32 - s.pressStart) % U32))) ∧
    (∀ (now : Nat) (s : BtnState),
        handleFactoryResetButton false now s = (⟨s.pressStart, false⟩, false)) ∧
    runButton ⟨0, false⟩ [(true, 0), (true, 4900), (false, 5000)]
      = [false, false, false] ∧
    runButton ⟨0, false⟩ [(true, 0), (false, 100), (true, 200), (true, 5300)]
      = [false, false, false, true] := by
  refine ⟨?_, ?_, by decide, by decide⟩
  · intro now s
    obtain ⟨ps, hb⟩ := s
    cases hb
    · simp [handleFactoryResetButton]
    · simp only [handleFactoryResetButton]
      by_cases h : 5000 < (now + U32 - ps) % U32
      · simp [h]
      · simp [h]
  · intro now s
    obtain ⟨ps, hb⟩ := s
    cases hb
    · simp [handleFactoryResetButton]
    · simp [handleFactoryResetButton]

/-- Helper: an expired zone whose stop command fails keeps its timer and
    produces exactly the one stop command, its mirror having been written to
    false by the engine. -/
theorem scan_step_fail (index now err : Nat) (z : Zone)
    (hd0 : z.safetyOffTime ≠ 0) (hle : z.safetyOffTime ≤ now)
    (herr : err ≠ 0) :
    handleSafetyTimeoutZone index now err z
      = (⟨false, z.safetyOffTime⟩, [Cmd.stopZone (index + 1)]) := by
  have hdue : deadlineDue now z.safetyOffTime = true := by
    simp only [deadlineDue, Bool.and_eq_true, decide_eq_true_eq]
    exact ⟨hd0, hle⟩
  simp [handleSafetyTimeoutZone, hdue, setLight, handleZoneChange, herr]

/-- Helper: an expired zone whose stop command succeeds gets its timer
    cleared to 0 and produces exactly the one stop command. -/
theorem scan_step_ok (index now : Nat) (z : Zone)
    (hd0 : z.safetyOffTime ≠ 0) (hle : z.safetyOffTime ≤ now) :
    handleSafetyTimeoutZone index now 0 z
      = (⟨false, 0⟩, [Cmd.stopZone (index + 1)]) := by
  have hdue : deadlineDue now z.safetyOffTime = true := by
    simp only [deadlineDue, Bool.and_eq_true, decide_eq_true_eq]
    exact ⟨hd0, hle⟩
  simp [handleSafetyTimeoutZone, hdue, setLight, handleZoneChange]

/-- Claim C3. A zone whose deadline has expired and whose deadline-triggered
    stop keeps failing is retried: across any sequence of polling iterations
    whose millis values have reached the deadline and whose stop commands
    all fail, the deadline remains set at its original value and every
    iteration reissues exactly one stop command; a subsequent iteration
    whose stop succeeds clears the deadline. A failed deadline-triggered
    stop is never dropped by clearing the deadline. -/
theorem c3_safety_stop_retried (index : Nat) (iters : List (Nat × Nat))
    (z : Zone) (hd0 : z.safetyOffTime ≠ 0)
    (hall : ∀ p ∈ iters, z.safetyOffTime ≤ p.1 ∧ p.2 ≠ 0) :
    (runScanIters index iters z).1.safetyOffTime = z.safetyOffTime ∧
    (runScanIters index iters z).2
      = iters.map (fun _ => Cmd.stopZone (index + 1)) ∧
    ∀ now2, z.safetyOffTime ≤ now2 →
      (handleSafetyTimeoutZone index now2 0
          (runScanIters index iters z).1).1.safetyOffTime = 0 ∧
      (handleSafetyTimeoutZone index now2 0 (runScanIters index iters z).1).2
        = [Cmd.stopZone (index + 1)] := by
  induction iters generalizing z with
  | nil =>
      refine ⟨rfl, rfl, ?_⟩
      intro now2 h2
      rw [runScanIters, scan_step_ok index now2 z hd0 h2]
      exact ⟨rfl, rfl⟩
  | cons p rest ih =>
      obtain ⟨hle, herr⟩ := hall p (List.mem_cons_self p rest)
      have hstep := scan_step_fail index p.1 p.2 z hd0 hle herr
      have hall2 : ∀ q ∈ rest,
          (⟨false, z.safetyOffTime⟩ : Zone).safetyOffTime ≤ q.1 ∧ q.2 ≠ 0 :=
        fun q hq => hall q (List.mem_cons_of_mem p hq)
      have ihr := ih ⟨false, z.safetyOffTime⟩ hd0 hall2
      refine ⟨?_, ?_, ?_⟩
      · simpa [runScanIters, hstep] using ihr.1
      · simpa [runScanIters, hstep] using ihr.2.1
      · intro now2 h2
        have h3 := ihr.2.2 now2 h2
        constructor
        · simpa [runScanIters, hstep] using h3.1
        · simpa [runScanIters, hstep] using h3.2

/-- Witness for claim C3 at a concrete input: deadline 7, two failing
    iterations at millis 10 and 12, then a successful stop at millis 20. -/
theorem c3_safety_stop_retried_witness :
    (runScanIters 0 [(10, 1), (12, 3)] ⟨true, 7⟩).1.safetyOffTime = 7 ∧
    (runScanIters 0 [(10, 1), (12, 3)] ⟨true, 7⟩).2
      = [Cmd.stopZone 1, Cmd.stopZone 1] ∧
    (handleSafetyTimeoutZone 0 20 0
        (runScanIters 0 [(10, 1), (12, 3)] ⟨true, 7⟩).1).1.safetyOffTime
      = 0 := by
  have h := c3_safety_stop_retried 0 [(10, 1), (12, 3)] ⟨true, 7⟩
    (by decide) (by decide)
  exact ⟨h.1, h.2.1, (h.2.2 20 (by decide)).1⟩

/-- Claim C4, counterexample. The code does no mirror write-back on actuator
    failure. After a failed start for zone 0 (status 1, requested ON), the
    mirror stays true instead of being forced back to OFF; after a failed
    stop (status 1, requested OFF on a running zone), the mirror stays false
    instead of being forced back to ON. -/
theorem c4_no_mirror_writeback_on_failure :
    (onNetworkRequest 0 true 1 0 ⟨false, 0⟩).1.mirror = true ∧
    (onNetworkRequest 0 false 1 0 ⟨true, 100⟩).1.mirror = false := by
  refine ⟨by decide, by decide⟩

/-- Claim C4, amended. When the actuator command fails, handleZoneChange
    only logs: the mirror is left at the value the request wrote (still ON
    after a failed start, still OFF after a failed stop — there is no
    suppressed-write force-back), the safety timer is unchanged (no deadline
    set after a failed start; the prior deadline retained after a failed
    stop), and exactly the one command of the requested direction was
    issued. -/
theorem c4_failure_leaves_state (index : Nat) (v : Bool) (err now : Nat)
    (z : Zone) (herr : err ≠ 0) :
    (onNetworkRequest index v err now z).1.mirror = v ∧
    (onNetworkRequest index v err now z).1.safetyOffTime = z.safetyOffTime ∧
    (onNetworkRequest index v err now z).2
      = [if v then Cmd.startZone (index + 1) SAFETY_TIMEOUT_MINUTES
         else Cmd.stopZone (index + 1)] := by
  cases v <;> simp [onNetworkRequest, setLight, handleZoneChange, herr]

/-- Witness for the amended claim C4 at a concrete input: zone 0, requested
    ON, actuator status 1. -/
theorem c4_failure_leaves_state_witness :
    (onNetworkRequest 0 true 1 0 ⟨false, 5⟩).1.mirror = true ∧
    (onNetworkRequest 0 true 1 0 ⟨false, 5⟩).1.safetyOffTime = 5 ∧
    (onNetworkRequest 0 true 1 0 ⟨false, 5⟩).2
      = [Cmd.startZone 1 SAFETY_TIMEOUT_MINUTES] :=
  c4_failure_leaves_state 0 true 1 0 ⟨false, 5⟩ (by decide)

/-- Claim C5. A handled ON request whose start succeeds sets the safety
    timer to millis() plus the configured duration (in the unsigned 32-bit
    arithmetic of the code) and leaves the mirror unchanged (the request
    came from the attribute, which already reflects ON); a handled OFF
    request whose stop succeeds clears the timer to 0. -/
theorem c5_success_deadline (index now : Nat) (z : Zone)
    (hm : z.mirror = true) :
    (onNetworkRequest index true 0 now z).1.mirror = z.mirror ∧
    (onNetworkRequest index true 0 now z).1.safetyOffTime
      = (now + safetyTimeoutMs) % U32 ∧
    ∀ z2 : Zone, (onNetworkRequest index false 0 now z2).1.safetyOffTime
      = 0 := by
  refine ⟨?_, ?_, ?_⟩
  · simp [onNetworkRequest, setLight, hm]
  · simp [onNetworkRequest, setLight, handleZoneChange]
  · intro z2
    simp [onNetworkRequest, setLight, handleZoneChange]

/-- Witness for claim C5 at a concrete input: zone 0, mirror already ON,
    millis 0. -/
theorem c5_success_deadline_witness :
    (onNetworkRequest 0 true 0 0 ⟨true, 0⟩).1.mirror = true ∧
    (onNetworkRequest 0 true 0 0 ⟨true, 0⟩).1.safetyOffTime
      = (0 + safetyTimeoutMs) % U32 ∧
    (onNetworkRequest 0 false 0 0 ⟨true, 3600000⟩).1.safetyOffTime = 0 := by
  have h := c5_success_deadline 0 0 ⟨true, 0⟩ rfl
  exact ⟨h.1, h.2.1, h.2.2 ⟨true, 3600000⟩⟩

/-- Claim C8, counterexample. handleZoneChange tracks no per-zone requested
    state: handling the same ON request twice in a row issues two start
    commands, not one — the second request is not a no-op. -/
theorem c8_second_request_not_noop :
    (handleZoneChange 0 true 0 100 0).2
        ++ (handleZoneChange 0 true 0 200 (handleZoneChange 0 true 0 100 0).1).2
      = [Cmd.startZone 1 60, Cmd.startZone 1 60] := by
  decide

/-- Claim C8, amended. Every invocation of handleZoneChange issues exactly
    one actuator command, so handling the same requested state twice in a
    row issues exactly two commands in total; deduplication of redundant
    requests, if any, happens upstream of this handler. -/
theorem c8_every_request_issues_command (index : Nat) (v : Bool)
    (err1 err2 n1 n2 t : Nat) :
    ((handleZoneChange index v err1 n1 t).2
        ++ (handleZoneChange index v err2 n2
              (handleZoneChange index v err1 n1 t).1).2).length = 2 := by
  cases v <;> simp [handleZoneChange]

/-- Claim C9. In the setup trace, the watchdog deregistration is the event
    immediately before the join and, on success, re-registration is the
    event immediately after it, so no watchdog registration is in force
    during the join; on failure the trace ends with an unconditional restart
    and the watchdog is never re-armed. -/
theorem c9_watchdog_bracket :
    setupEvents true
      = [BootEvent.wdtInit, BootEvent.wdtAdd, BootEvent.wdtDelete,
         BootEvent.zigbeeBegin, BootEvent.wdtAdd] ∧
    setupEvents false
      = [BootEvent.wdtInit, BootEvent.wdtAdd, BootEvent.wdtDelete,
         BootEvent.zigbeeBegin, BootEvent.restart] ∧
    (∀ ok : Bool, (setupEvents ok)[2]? = some BootEvent.wdtDelete ∧
        (setupEvents ok)[3]? = some BootEvent.zigbeeBegin) ∧
    (setupEvents true)[4]? = some BootEvent.wdtAdd ∧
    (setupEvents false).getLast? = some BootEvent.restart ∧
    BootEvent.wdtAdd ∉ (setupEvents false).drop 2 := by
  refine ⟨by decide, by decide, ?_, by decide, by decide, by decide⟩
  intro ok
  cases ok <;> exact ⟨by decide, by decide⟩

/-- Helper: once the initialShutdownComplete flag is set, no later iteration
    fires the all-zones-off action, whatever the connectivity observations
    (including disconnects and reconnects). -/
theorem shutdownFires_complete (cs : List Bool) :
    shutdownFires true cs = cs.map fun _ => false := by
  induction cs with
  | nil => rfl
  | cons c rest ih => simp [shutdownFires, ih]

/-- Helper: every zone returned by the all-zones-off action has its mirror
    driven to false, whatever its previous state and whatever the actuator
    statuses. -/
theorem forceAllOffGo_mirrors (errf : Nat → Nat) (now : Nat)
    (index : Nat) (zs : List Zone) :
    (((forceAllOffGo errf now index zs).1).all fun z => !z.mirror) = true := by
  induction zs generalizing index with
  | nil => rfl
  | cons z rest ih => simp [forceAllOffGo, setLight, ih]

/-- Claim C6. Starting from boot (flag clear), the all-zones-off action
    fires exactly at the first iteration whose connectivity observation is
    true and at no other iteration, however the connection later drops and
    returns; and the action drives the mirror of every zone to OFF
    regardless of its current believed state. -/
theorem c6_first_connect_shutdown_once :
    (∀ cs : List Bool, shutdownFires false cs = firstTrueOnly cs) ∧
    (∀ cs : List Bool, shutdownFires true cs = cs.map fun _ => false) ∧
    (∀ (errf : Nat → Nat) (now : Nat) (zs : List Zone),
        ((forceAllOff errf now zs).1.all fun z => !z.mirror) = true) := by
  refine ⟨?_, shutdownFires_complete, ?_⟩
  · intro cs
    induction cs with
    | nil => rfl
    | cons c rest ih =>
        cases c
        · simp [shutdownFires, firstTrueOnly, ih]
        · simp [shutdownFires, firstTrueOnly, shutdownFires_complete]
  · intro errf now zs
    exact forceAllOffGo_mirrors errf now 0 zs

/-- Claim C10. The code encodes the absence of a deadline as the stored
    timer value 0: isAnyZoneActive reports a zone active exactly when its
    timer is nonzero; the deadline scan considers a zone exactly when its
    timer is nonzero (a zero timer is ignored at every millis value); and a
    successful start at millis = 2^32 - safetyTimeoutMs computes the timer
    (millis + safetyTimeoutMs) mod 2^32 = 0, leaving a zone that is
    indistinguishable from one with no timer running: it is reported
    inactive and the deadline scan never stops it. -/
theorem c10_zero_timer_sentinel :
    (∀ zs : List Zone,
        isAnyZoneActive zs = true ↔ ∃ z ∈ zs, z.safetyOffTime ≠ 0) ∧
    (∀ (index now err : Nat) (b : Bool),
        handleSafetyTimeoutZone index now err ⟨b, 0⟩ = (⟨b, 0⟩, [])) ∧
    (∀ now t : Nat, deadlineDue now t = true ↔ (t ≠ 0 ∧ t ≤ now)) ∧
    ((onNetworkRequest 0 true 0 (U32 - safetyTimeoutMs) ⟨true, 0⟩).1
        = ⟨true, 0⟩ ∧
      isAnyZoneActive
          [(onNetworkRequest 0 true 0 (U32 - safetyTimeoutMs) ⟨true, 0⟩).1]
        = false ∧
      ∀ now err : Nat,
        handleSafetyTimeoutZone 0 now err
            (onNetworkRequest 0 true 0 (U32 - safetyTimeoutMs) ⟨true, 0⟩).1
          = ((onNetworkRequest 0 true 0 (U32 - safetyTimeoutMs) ⟨true, 0⟩).1,
             [])) := by
  refine ⟨?_, ?_, ?_, by decide, by decide, ?_⟩
  · intro zs
    simp [isAnyZoneActive]
  · intro index now err b
    simp [handleSafetyTimeoutZone, deadlineDue]
  · intro now t
    simp [deadlineDue]
  · intro now err
    have hz : (onNetworkRequest 0 true 0 (U32 - safetyTimeoutMs)
        ⟨true, 0⟩).1 = (⟨true, 0⟩ : Zone) := by decide
    rw [hz]
    simp [handleSafetyTimeoutZone, deadlineDue]

end Firmware
